import Mathlib

/-!
Shallow embedding of `GraphicBufferMapper::lockAsyncYCbCr` and its helper
`isValidYCbCrPlane` from `libs/ui/GraphicBufferMapper.cpp`.

The flex layout delivered by the lock operation is modelled as an immutable
value; the post-lock resolution (format check, plane classification, per-plane
validation, cross-plane checks and packing into `android_ycbcr`) is a pure
function of that value.  Side effects are made explicit: the resolver returns,
besides the gralloc1 error code, the contents of the caller-supplied
`android_ycbcr` record after the call (unchanged unless the success path writes
it) and the number of `unlock(handle)` calls performed on the path taken.
-/

/-- `android_flex_component_t`: component carried by a flex plane.  Besides
Y, Cb and Cr the enum has further members (R, G, B, A, raw, ...), collapsed
here into `other`. -/
inductive FlexComponent where
  | Y
  | Cb
  | Cr
  | other (code : Nat)
deriving DecidableEq, Repr

/-- `android_flex_format_t`: overall format tag of a flex layout. -/
inductive FlexFormat where
  | YCbCr
  | other (code : Nat)
deriving DecidableEq, Repr

/-- `android_flex_plane_t`.  `top_left` is a `uint8_t*` start address, modelled
as a plain address; the remaining fields are `int32_t`. -/
structure FlexPlane where
  top_left : Nat
  component : FlexComponent
  bits_per_component : Int
  bits_used : Int
  h_increment : Int
  v_increment : Int
deriving DecidableEq, Repr

/-- `android_flex_layout_t` as consumed by the resolution step: the format tag
and the plane list. -/
structure FlexLayout where
  format : FlexFormat
  planes : List FlexPlane
deriving DecidableEq, Repr

/-- `struct android_ycbcr`: the caller-supplied output record. -/
structure AndroidYCbCr where
  y : Nat
  cb : Nat
  cr : Nat
  ystride : Nat
  cstride : Nat
  chroma_step : Nat
deriving DecidableEq, Repr

/-- `gralloc1_error_t` outcomes relevant here: `GRALLOC1_ERROR_NONE`,
`GRALLOC1_ERROR_UNSUPPORTED`, and the remaining codes collapsed into
`OTHER`. -/
inductive Gralloc1Error where
  | NONE
  | UNSUPPORTED
  | OTHER (code : Nat)
deriving DecidableEq, Repr

/-- `static_cast<size_t>` applied to a signed value: conversion modulo 2^64. -/
def toSizeT (v : Int) : Nat := (v % (2 : Int) ^ 64).toNat

/-- `isValidYCbCrPlane` (GraphicBufferMapper.cpp): a plane is usable when its
samples are 8-bit (`bits_per_component == 8 && bits_used == 8`) and its
increments are valid: `h_increment == 1 || (component != Y && h_increment == 2)`
together with `v_increment > 0`. -/
def isValidYCbCrPlane (plane : FlexPlane) : Bool :=
  if plane.bits_per_component ≠ 8 then
    false
  else if plane.bits_used ≠ 8 then
    false
  else
    let hasValidIncrement :=
      (plane.h_increment == 1 ||
        (decide (plane.component ≠ FlexComponent.Y) && plane.h_increment == 2))
    let hasValidIncrement := hasValidIncrement && decide (plane.v_increment > 0)
    if !hasValidIncrement then false else true

/-- One iteration of the "Find planes" loop of `lockAsyncYCbCr`: classify the
current plane by its component and overwrite the corresponding slot of the
`(yPlane, cbPlane, crPlane)` accumulator; planes with any other component
leave the accumulator unchanged. -/
def classifyStep (acc : Option FlexPlane × Option FlexPlane × Option FlexPlane)
    (p : FlexPlane) : Option FlexPlane × Option FlexPlane × Option FlexPlane :=
  if p.component = FlexComponent.Y then (some p, acc.2.1, acc.2.2)
  else if p.component = FlexComponent.Cb then (acc.1, some p, acc.2.2)
  else if p.component = FlexComponent.Cr then (acc.1, acc.2.1, some p)
  else acc

/-- The "Find planes" loop of `lockAsyncYCbCr`: one left-to-right scan over the
plane list, recording the most recently seen plane for each of Y, Cb and Cr
(a later occurrence of a component overwrites an earlier one). -/
def findPlanes (planes : List FlexPlane) :
    Option FlexPlane × Option FlexPlane × Option FlexPlane :=
  planes.foldl classifyStep (none, none, none)

/-- The last plane of the list whose component is `c`, if any: the reference
notion of "last occurrence wins" used to characterise `findPlanes`. -/
def lastWith (c : FlexComponent) : List FlexPlane → Option FlexPlane
  | [] => none
  | p :: ps =>
      (lastWith c ps).or (if p.component = c then some p else none)

/-- The "Pack plane data into android_ycbcr struct" block of
`lockAsyncYCbCr`. -/
def packYCbCr (yPlane cbPlane crPlane : FlexPlane) : AndroidYCbCr :=
  { y := yPlane.top_left
    cb := cbPlane.top_left
    cr := crPlane.top_left
    ystride := toSizeT yPlane.v_increment
    cstride := toSizeT cbPlane.v_increment
    chroma_step := toSizeT cbPlane.h_increment }

/-- The part of `lockAsyncYCbCr` that runs after the lock operation has
succeeded and produced a flex layout: format check, plane search, per-plane
validation, Cb/Cr consistency checks, and on success the packing of the
output record.  Returns `(error, ycbcr after the call, number of unlock
calls)`; every failure exit in the source calls `unlock(handle)` once and
returns `GRALLOC1_ERROR_UNSUPPORTED`, the success exit writes the record and
returns the (NONE) lock error. -/
def resolveFlexYCbCr (layout : FlexLayout) (ycbcr : AndroidYCbCr) :
    Gralloc1Error × AndroidYCbCr × Nat :=
  if layout.format ≠ FlexFormat.YCbCr then
    (Gralloc1Error.UNSUPPORTED, ycbcr, 1)
  else
    let found := findPlanes layout.planes
    match found.1 with
    | none => (Gralloc1Error.UNSUPPORTED, ycbcr, 1)
    | some yPlane =>
      match found.2.1 with
      | none => (Gralloc1Error.UNSUPPORTED, ycbcr, 1)
      | some cbPlane =>
        match found.2.2 with
        | none => (Gralloc1Error.UNSUPPORTED, ycbcr, 1)
        | some crPlane =>
          if !isValidYCbCrPlane yPlane then
            (Gralloc1Error.UNSUPPORTED, ycbcr, 1)
          else if !isValidYCbCrPlane cbPlane then
            (Gralloc1Error.UNSUPPORTED, ycbcr, 1)
          else if !isValidYCbCrPlane crPlane then
            (Gralloc1Error.UNSUPPORTED, ycbcr, 1)
          else if cbPlane.v_increment ≠ crPlane.v_increment then
            (Gralloc1Error.UNSUPPORTED, ycbcr, 1)
          else if cbPlane.h_increment ≠ crPlane.h_increment then
            (Gralloc1Error.UNSUPPORTED, ycbcr, 1)
          else
            (Gralloc1Error.NONE, packYCbCr yPlane cbPlane crPlane, 0)

/-- `lockAsyncYCbCr` on the flex-layout path: the lock operation yields an
error code and (on success) a flex layout; a failed lock returns that error
with no unlock and no write, a successful lock hands the layout to the
resolution step. -/
def lockAsyncYCbCr (lockError : Gralloc1Error) (layout : FlexLayout)
    (ycbcr : AndroidYCbCr) : Gralloc1Error × AndroidYCbCr × Nat :=
  if lockError ≠ Gralloc1Error.NONE then
    (lockError, ycbcr, 0)
  else
    resolveFlexYCbCr layout ycbcr

/-! ### Helper lemmas -/

lemma classifyStep_eq (acc : Option FlexPlane × Option FlexPlane × Option FlexPlane)
    (p : FlexPlane) :
    classifyStep acc p =
      ((if p.component = FlexComponent.Y then some p else acc.1),
       (if p.component = FlexComponent.Cb then some p else acc.2.1),
       (if p.component = FlexComponent.Cr then some p else acc.2.2)) := by
  rcases acc with ⟨a, b, c⟩
  unfold classifyStep
  by_cases h1 : p.component = FlexComponent.Y <;>
    by_cases h2 : p.component = FlexComponent.Cb <;>
    by_cases h3 : p.component = FlexComponent.Cr <;>
    simp_all

lemma findPlanes_loop (l : List FlexPlane) (a b c : Option FlexPlane) :
    l.foldl classifyStep (a, b, c) =
      ((lastWith FlexComponent.Y l).or a,
       (lastWith FlexComponent.Cb l).or b,
       (lastWith FlexComponent.Cr l).or c) := by
  induction l generalizing a b c with
  | nil => simp [lastWith]
  | cons p ps ih =>
    rw [List.foldl_cons, classifyStep_eq, ih]
    simp only [lastWith, Option.or_assoc]
    refine Prod.ext ?_ (Prod.ext ?_ ?_) <;> simp only [] <;>
      (rcases h : lastWith _ ps with _ | q <;> simp [h] <;> split <;> simp)

lemma findPlanes_eq (l : List FlexPlane) :
    findPlanes l =
      (lastWith FlexComponent.Y l, lastWith FlexComponent.Cb l,
       lastWith FlexComponent.Cr l) := by
  unfold findPlanes
  rw [findPlanes_loop]
  simp

lemma lastWith_eq_none (c : FlexComponent) (l : List FlexPlane) :
    lastWith c l = none ↔ ∀ p ∈ l, p.component ≠ c := by
  induction l with
  | nil => simp [lastWith]
  | cons p ps ih =>
    simp only [lastWith, Option.or_eq_none, ih, List.mem_cons]
    constructor
    · rintro ⟨hps, hp⟩ q hq
      rcases hq with rfl | hq
      · intro hc; simp [hc] at hp
      · exact hps q hq
    · intro h
      refine ⟨fun q hq => h q (Or.inr hq), ?_⟩
      simp [h p (Or.inl rfl)]

lemma isValidYCbCrPlane_iff (p : FlexPlane) :
    isValidYCbCrPlane p = true ↔
      (p.bits_per_component = 8 ∧ p.bits_used = 8 ∧ 0 < p.v_increment ∧
        (p.h_increment = 1 ∨
          (p.component ≠ FlexComponent.Y ∧ p.h_increment = 2))) := by
  unfold isValidYCbCrPlane
  by_cases h1 : p.bits_per_component = 8 <;>
    by_cases h2 : p.bits_used = 8 <;>
    simp_all <;> tauto

lemma toSizeT_of_range (v : Int) (h0 : 0 ≤ v) (h : v < 2 ^ 64) :
    (toSizeT v : Int) = v := by
  unfold toSizeT
  rw [Int.emod_eq_of_lt h0 h, Int.toNat_of_nonneg h0]

/-- Exhaustive description of the post-lock resolution: it either takes one of
the failure exits, all of which return `GRALLOC1_ERROR_UNSUPPORTED`, leave the
output record alone and unlock once, or all checks pass and it returns
`GRALLOC1_ERROR_NONE` with the record packed from the selected planes and no
unlock. -/
lemma resolve_cases (layout : FlexLayout) (ycbcr : AndroidYCbCr) :
    resolveFlexYCbCr layout ycbcr = (Gralloc1Error.UNSUPPORTED, ycbcr, 1) ∨
    (layout.format = FlexFormat.YCbCr ∧
      ∃ yP cbP crP,
        findPlanes layout.planes = (some yP, some cbP, some crP) ∧
        isValidYCbCrPlane yP = true ∧ isValidYCbCrPlane cbP = true ∧
        isValidYCbCrPlane crP = true ∧
        cbP.v_increment = crP.v_increment ∧
        cbP.h_increment = crP.h_increment ∧
        resolveFlexYCbCr layout ycbcr =
          (Gralloc1Error.NONE, packYCbCr yP cbP crP, 0)) := by
  by_cases hfmt : layout.format = FlexFormat.YCbCr
  · rcases hfp : findPlanes layout.planes with ⟨y?, cb?, cr?⟩
    rcases y? with _ | yP
    · left; simp [resolveFlexYCbCr, hfmt, hfp]
    rcases cb? with _ | cbP
    · left; simp [resolveFlexYCbCr, hfmt, hfp]
    rcases cr? with _ | crP
    · left; simp [resolveFlexYCbCr, hfmt, hfp]
    by_cases hy : isValidYCbCrPlane yP = true
    case neg => left; simp [resolveFlexYCbCr, hfmt, hfp, hy]
    by_cases hcb : isValidYCbCrPlane cbP = true
    case neg => left; simp [resolveFlexYCbCr, hfmt, hfp, hy, hcb]
    by_cases hcr : isValidYCbCrPlane crP = true
    case neg => left; simp [resolveFlexYCbCr, hfmt, hfp, hy, hcb, hcr]
    by_cases hv : cbP.v_increment = crP.v_increment
    case neg => left; simp [resolveFlexYCbCr, hfmt, hfp, hy, hcb, hcr, hv]
    by_cases hh : cbP.h_increment = crP.h_increment
    case neg => left; simp [resolveFlexYCbCr, hfmt, hfp, hy, hcb, hcr, hv, hh]
    right
    exact ⟨hfmt, yP, cbP, crP, rfl, hy, hcb, hcr, hv, hh, by
      simp [resolveFlexYCbCr, hfmt, hfp, hy, hcb, hcr, hv, hh]⟩
  · left; simp [resolveFlexYCbCr, hfmt]

lemma resolve_congr_planes (format : FlexFormat) (l1 l2 : List FlexPlane)
    (ycbcr : AndroidYCbCr) (h : findPlanes l1 = findPlanes l2) :
    resolveFlexYCbCr ⟨format, l1⟩ ycbcr = resolveFlexYCbCr ⟨format, l2⟩ ycbcr := by
  unfold resolveFlexYCbCr
  dsimp only
  rw [h]

/-! ### Sample planes used by the concrete witnesses (the spec's scenario) -/

def sampleY : FlexPlane := ⟨100, FlexComponent.Y, 8, 8, 1, 64⟩

def sampleCb : FlexPlane := ⟨200, FlexComponent.Cb, 8, 8, 2, 32⟩

def sampleCr : FlexPlane := ⟨300, FlexComponent.Cr, 8, 8, 2, 32⟩

def sampleRec : AndroidYCbCr := ⟨9, 9, 9, 9, 9, 9⟩

/-! ### Claims -/

/-- C1: when the layout's format tag is YCbCr and the selected Y, Cb, Cr planes
all pass validation and the chroma planes agree on both increments,
`lockAsyncYCbCr` (after a successful lock) returns success with no unlock and
fills the output record with the three plane start addresses, `ystride` = Y
plane vertical increment, `cstride` = Cb plane vertical increment and
`chroma_step` = Cb plane horizontal increment. -/
theorem lockAsyncYCbCr_success_fields (layout : FlexLayout) (ycbcr : AndroidYCbCr)
    (yP cbP crP : FlexPlane)
    (hfmt : layout.format = FlexFormat.YCbCr)
    (hfp : findPlanes layout.planes = (some yP, some cbP, some crP))
    (hy : isValidYCbCrPlane yP = true)
    (hcb : isValidYCbCrPlane cbP = true)
    (hcr : isValidYCbCrPlane crP = true)
    (hv : cbP.v_increment = crP.v_increment)
    (hh : cbP.h_increment = crP.h_increment)
    (hyr : yP.v_increment < 2 ^ 31)
    (hcbr : cbP.v_increment < 2 ^ 31) :
    ∃ out : AndroidYCbCr,
      lockAsyncYCbCr Gralloc1Error.NONE layout ycbcr =
        (Gralloc1Error.NONE, out, 0) ∧
      out.y = yP.top_left ∧ out.cb = cbP.top_left ∧ out.cr = crP.top_left ∧
      (out.ystride : Int) = yP.v_increment ∧
      (out.cstride : Int) = cbP.v_increment ∧
      (out.chroma_step : Int) = cbP.h_increment := by
  have hy0 : 0 < yP.v_increment := ((isValidYCbCrPlane_iff yP).1 hy).2.2.1
  have hcb0 : 0 < cbP.v_increment := ((isValidYCbCrPlane_iff cbP).1 hcb).2.2.1
  have hcbh : cbP.h_increment = 1 ∨ cbP.h_increment = 2 := by
    rcases ((isValidYCbCrPlane_iff cbP).1 hcb).2.2.2 with h | ⟨_, h⟩
    · exact Or.inl h
    · exact Or.inr h
  refine ⟨packYCbCr yP cbP crP, ?_, rfl, rfl, rfl, ?_, ?_, ?_⟩
  · simp [lockAsyncYCbCr, resolveFlexYCbCr, hfmt, hfp, hy, hcb, hcr, hv, hh]
  · exact toSizeT_of_range _ hy0.le (lt_trans hyr (by norm_num))
  · exact toSizeT_of_range _ hcb0.le (lt_trans hcbr (by norm_num))
  · rcases hcbh with h | h <;> rw [show (packYCbCr yP cbP crP).chroma_step = toSizeT cbP.h_increment from rfl, h] <;> rfl

/-- C1 witness: the spec's concrete scenario. -/
theorem lockAsyncYCbCr_success_fields_witness :
    ∃ out : AndroidYCbCr,
      lockAsyncYCbCr Gralloc1Error.NONE
        ⟨FlexFormat.YCbCr, [sampleY, sampleCb, sampleCr]⟩ sampleRec =
        (Gralloc1Error.NONE, out, 0) ∧
      out.y = sampleY.top_left ∧ out.cb = sampleCb.top_left ∧
      out.cr = sampleCr.top_left ∧
      (out.ystride : Int) = sampleY.v_increment ∧
      (out.cstride : Int) = sampleCb.v_increment ∧
      (out.chroma_step : Int) = sampleCb.h_increment :=
  lockAsyncYCbCr_success_fields _ _ sampleY sampleCb sampleCr rfl (by decide)
    (by decide) (by decide) (by decide) (by decide) (by decide) (by decide)
    (by decide)

/-- C2: a selected Y, Cb or Cr plane passes `isValidYCbCrPlane` exactly when
its samples are 8-bit (`bits_per_component = 8`, `bits_used = 8`), its
vertical increment is strictly positive, and its horizontal increment is 1
for the Y plane or 1-or-2 for a chroma plane; and if any of the three
selected planes fails validation, the whole resolution returns
`GRALLOC1_ERROR_UNSUPPORTED` with the record untouched and one unlock. -/
theorem validation_spec :
    (∀ p : FlexPlane,
      p.component = FlexComponent.Y ∨ p.component = FlexComponent.Cb ∨
        p.component = FlexComponent.Cr →
      (isValidYCbCrPlane p = true ↔
        (p.bits_per_component = 8 ∧ p.bits_used = 8 ∧ 0 < p.v_increment ∧
          (if p.component = FlexComponent.Y then p.h_increment = 1
           else p.h_increment = 1 ∨ p.h_increment = 2)))) ∧
    (∀ (layout : FlexLayout) (ycbcr : AndroidYCbCr) (yP cbP crP : FlexPlane),
      findPlanes layout.planes = (some yP, some cbP, some crP) →
      (isValidYCbCrPlane yP = false ∨ isValidYCbCrPlane cbP = false ∨
        isValidYCbCrPlane crP = false) →
      resolveFlexYCbCr layout ycbcr = (Gralloc1Error.UNSUPPORTED, ycbcr, 1)) := by
  constructor
  · intro p hc
    rw [isValidYCbCrPlane_iff]
    rcases hc with h | h | h <;> simp [h]
  · intro layout ycbcr yP cbP crP hfp hbad
    rcases resolve_cases layout ycbcr with hc | ⟨_, yP', cbP', crP', hfp', hy, hcb, hcr, _, _, _⟩
    · exact hc
    · exfalso
      rw [hfp'] at hfp
      simp only [Prod.mk.injEq, Option.some.injEq] at hfp
      obtain ⟨h1, h2, h3⟩ := hfp
      subst h1; subst h2; subst h3
      rcases hbad with h | h | h <;> simp_all

/-- C2 witness: a Y plane with horizontal increment 2 is rejected and makes a
concrete resolution fail unsupported. -/
theorem validation_spec_witness :
    resolveFlexYCbCr
      ⟨FlexFormat.YCbCr,
        [⟨100, FlexComponent.Y, 8, 8, 2, 64⟩, sampleCb, sampleCr]⟩ sampleRec =
      (Gralloc1Error.UNSUPPORTED, sampleRec, 1) :=
  validation_spec.2 _ _ ⟨100, FlexComponent.Y, 8, 8, 2, 64⟩ sampleCb sampleCr
    (by decide) (Or.inl (by decide))

/-- C3: after a successful lock, every failure exit of the flex-layout path
returns `GRALLOC1_ERROR_UNSUPPORTED` (never a generic error) and performs
exactly one unlock of the handle. -/
theorem failure_unlocks_once (layout : FlexLayout) (ycbcr : AndroidYCbCr)
    (h : (lockAsyncYCbCr Gralloc1Error.NONE layout ycbcr).1 ≠ Gralloc1Error.NONE) :
    (lockAsyncYCbCr Gralloc1Error.NONE layout ycbcr).1 =
      Gralloc1Error.UNSUPPORTED ∧
    (lockAsyncYCbCr Gralloc1Error.NONE layout ycbcr).2.2 = 1 := by
  have hl : lockAsyncYCbCr Gralloc1Error.NONE layout ycbcr =
      resolveFlexYCbCr layout ycbcr := by
    simp [lockAsyncYCbCr]
  rw [hl] at h ⊢
  rcases resolve_cases layout ycbcr with hc | ⟨_, _, _, _, _, _, _, _, _, _, hc⟩ <;>
    rw [hc] at h ⊢ <;> simp_all

/-- C3 witness: a concrete layout whose format tag is wrong fails unsupported
with one unlock. -/
theorem failure_unlocks_once_witness :
    (lockAsyncYCbCr Gralloc1Error.NONE
        ⟨FlexFormat.other 0, [sampleY, sampleCb, sampleCr]⟩ sampleRec).1 =
      Gralloc1Error.UNSUPPORTED ∧
    (lockAsyncYCbCr Gralloc1Error.NONE
        ⟨FlexFormat.other 0, [sampleY, sampleCb, sampleCr]⟩ sampleRec).2.2 = 1 :=
  failure_unlocks_once _ _ (by decide)

/-- C4: if any of the components Y, Cb, Cr appears on no plane of the layout,
resolution fails with `GRALLOC1_ERROR_UNSUPPORTED` and the output record is
left untouched. -/
theorem missing_component_unsupported (layout : FlexLayout) (ycbcr : AndroidYCbCr)
    (h : (∀ p ∈ layout.planes, p.component ≠ FlexComponent.Y) ∨
         (∀ p ∈ layout.planes, p.component ≠ FlexComponent.Cb) ∨
         (∀ p ∈ layout.planes, p.component ≠ FlexComponent.Cr)) :
    resolveFlexYCbCr layout ycbcr = (Gralloc1Error.UNSUPPORTED, ycbcr, 1) := by
  rcases resolve_cases layout ycbcr with hc | ⟨_, yP, cbP, crP, hfp, _⟩
  · exact hc
  · exfalso
    rw [findPlanes_eq] at hfp
    simp only [Prod.mk.injEq] at hfp
    obtain ⟨h1, h2, h3⟩ := hfp
    rcases h with h | h | h
    · rw [(lastWith_eq_none _ _).2 h] at h1; exact Option.noConfusion h1
    · rw [(lastWith_eq_none _ _).2 h] at h2; exact Option.noConfusion h2
    · rw [(lastWith_eq_none _ _).2 h] at h3; exact Option.noConfusion h3

/-- C4 witness: a layout with only Y and Cb planes fails unsupported. -/
theorem missing_component_unsupported_witness :
    resolveFlexYCbCr ⟨FlexFormat.YCbCr, [sampleY, sampleCb]⟩ sampleRec =
      (Gralloc1Error.UNSUPPORTED, sampleRec, 1) :=
  missing_component_unsupported _ _
    (Or.inr (Or.inr (by decide)))

/-- C5: whenever the selected Cb and Cr planes disagree on the vertical or on
the horizontal increment, resolution fails with `GRALLOC1_ERROR_UNSUPPORTED`
and the record untouched, regardless of the planes' individual validity. -/
theorem chroma_mismatch_unsupported (layout : FlexLayout) (ycbcr : AndroidYCbCr)
    (cbP crP : FlexPlane)
    (hcb : (findPlanes layout.planes).2.1 = some cbP)
    (hcr : (findPlanes layout.planes).2.2 = some crP)
    (hmism : cbP.v_increment ≠ crP.v_increment ∨
             cbP.h_increment ≠ crP.h_increment) :
    resolveFlexYCbCr layout ycbcr = (Gralloc1Error.UNSUPPORTED, ycbcr, 1) := by
  rcases resolve_cases layout ycbcr with hc | ⟨_, yP, cbP', crP', hfp, _, _, _, hv, hh, _⟩
  · exact hc
  · exfalso
    rw [hfp] at hcb hcr
    simp only [Option.some.injEq] at hcb hcr
    subst hcb; subst hcr
    rcases hmism with h | h
    · exact h hv
    · exact h hh

/-- C5 witness: the spec's scenario with Cb h-increment 1 against Cr
h-increment 2 fails unsupported although both planes are individually
valid. -/
theorem chroma_mismatch_unsupported_witness :
    resolveFlexYCbCr
      ⟨FlexFormat.YCbCr,
        [sampleY, ⟨200, FlexComponent.Cb, 8, 8, 1, 32⟩, sampleCr]⟩ sampleRec =
      (Gralloc1Error.UNSUPPORTED, sampleRec, 1) :=
  chroma_mismatch_unsupported _ _ ⟨200, FlexComponent.Cb, 8, 8, 1, 32⟩ sampleCr
    (by decide) (by decide) (Or.inr (by decide))

/-- C6: a layout whose format tag is not YCbCr is rejected with
`GRALLOC1_ERROR_UNSUPPORTED`, the output record untouched, and the outcome
does not depend on the plane list at all (the rejection happens before any
plane classification). -/
theorem non_ycbcr_format_rejected (format : FlexFormat)
    (planes planes' : List FlexPlane) (ycbcr : AndroidYCbCr)
    (h : format ≠ FlexFormat.YCbCr) :
    resolveFlexYCbCr ⟨format, planes⟩ ycbcr =
      (Gralloc1Error.UNSUPPORTED, ycbcr, 1) ∧
    resolveFlexYCbCr ⟨format, planes⟩ ycbcr =
      resolveFlexYCbCr ⟨format, planes'⟩ ycbcr := by
  constructor <;> simp [resolveFlexYCbCr, h]

/-- C6 witness: a concrete non-YCbCr layout is rejected independently of the
planes. -/
theorem non_ycbcr_format_rejected_witness :
    resolveFlexYCbCr ⟨FlexFormat.other 7, [sampleY, sampleCb, sampleCr]⟩
        sampleRec = (Gralloc1Error.UNSUPPORTED, sampleRec, 1) ∧
    resolveFlexYCbCr ⟨FlexFormat.other 7, [sampleY, sampleCb, sampleCr]⟩
        sampleRec = resolveFlexYCbCr ⟨FlexFormat.other 7, []⟩ sampleRec :=
  non_ycbcr_format_rejected _ _ _ _ (by decide)

/-- C7: through the flex-layout path the output record is all-or-nothing: on
every failure it is exactly the caller-supplied record (no field written), and
on success it is exactly the descriptor packed from the three selected
planes. -/
theorem no_partial_output (layout : FlexLayout) (ycbcr : AndroidYCbCr) :
    ((resolveFlexYCbCr layout ycbcr).1 ≠ Gralloc1Error.NONE →
      (resolveFlexYCbCr layout ycbcr).2.1 = ycbcr) ∧
    ((resolveFlexYCbCr layout ycbcr).1 = Gralloc1Error.NONE →
      ∃ yP cbP crP,
        findPlanes layout.planes = (some yP, some cbP, some crP) ∧
        (resolveFlexYCbCr layout ycbcr).2.1 = packYCbCr yP cbP crP) := by
  rcases resolve_cases layout ycbcr with hc | ⟨_, yP, cbP, crP, hfp, _, _, _, _, _, hc⟩ <;>
    rw [hc] <;> constructor
  · intro _; rfl
  · intro h; exact absurd h (by simp)
  · intro h; exact absurd rfl h
  · intro _; exact ⟨yP, cbP, crP, hfp, rfl⟩

/-- C7 witness: on a concrete failing input the record comes back exactly as
supplied. -/
theorem no_partial_output_witness :
    (resolveFlexYCbCr ⟨FlexFormat.YCbCr, [sampleY, sampleCb]⟩ sampleRec).2.1 =
      sampleRec :=
  (no_partial_output ⟨FlexFormat.YCbCr, [sampleY, sampleCb]⟩ sampleRec).1
    (by decide)

/-- C8: the plane-selection scan records, for each of Y, Cb and Cr, the last
plane of the list bearing that component (later occurrences override earlier
ones), and the resolution outcome depends on the plane list only through those
three last occurrences. -/
theorem last_occurrence_wins :
    (∀ l : List FlexPlane,
      findPlanes l =
        (lastWith FlexComponent.Y l, lastWith FlexComponent.Cb l,
         lastWith FlexComponent.Cr l)) ∧
    (∀ (format : FlexFormat) (l1 l2 : List FlexPlane) (ycbcr : AndroidYCbCr),
      lastWith FlexComponent.Y l1 = lastWith FlexComponent.Y l2 →
      lastWith FlexComponent.Cb l1 = lastWith FlexComponent.Cb l2 →
      lastWith FlexComponent.Cr l1 = lastWith FlexComponent.Cr l2 →
      resolveFlexYCbCr ⟨format, l1⟩ ycbcr =
        resolveFlexYCbCr ⟨format, l2⟩ ycbcr) := by
  refine ⟨findPlanes_eq, ?_⟩
  intro format l1 l2 ycbcr h1 h2 h3
  refine resolve_congr_planes _ _ _ _ ?_
  rw [findPlanes_eq, findPlanes_eq, h1, h2, h3]

/-- C8 witness: a duplicated Cb plane: only the later one is used, so the
layout resolves exactly like one without the earlier duplicate. -/
theorem last_occurrence_wins_witness :
    resolveFlexYCbCr
      ⟨FlexFormat.YCbCr,
        [⟨50, FlexComponent.Cb, 8, 8, 1, 16⟩, sampleY, sampleCb, sampleCr]⟩
      sampleRec =
    resolveFlexYCbCr ⟨FlexFormat.YCbCr, [sampleY, sampleCb, sampleCr]⟩
      sampleRec :=
  last_occurrence_wins.2 _ _ _ _ (by decide) (by decide) (by decide)

/-- C9: the resolver, and the whole flex path after a successful lock, is a
pure function of the layout and the supplied record: equal inputs give equal
outcomes and equal descriptor contents. -/
theorem resolver_deterministic (l1 l2 : FlexLayout) (y1 y2 : AndroidYCbCr)
    (hl : l1 = l2) (hy : y1 = y2) :
    resolveFlexYCbCr l1 y1 = resolveFlexYCbCr l2 y2 ∧
    lockAsyncYCbCr Gralloc1Error.NONE l1 y1 =
      lockAsyncYCbCr Gralloc1Error.NONE l2 y2 := by
  subst hl; subst hy; exact ⟨rfl, rfl⟩

/-- C9 witness: determinism at the spec's concrete scenario. -/
theorem resolver_deterministic_witness :
    resolveFlexYCbCr ⟨FlexFormat.YCbCr, [sampleY, sampleCb, sampleCr]⟩
        sampleRec =
      resolveFlexYCbCr ⟨FlexFormat.YCbCr, [sampleY, sampleCb, sampleCr]⟩
        sampleRec ∧
    lockAsyncYCbCr Gralloc1Error.NONE
        ⟨FlexFormat.YCbCr, [sampleY, sampleCb, sampleCr]⟩ sampleRec =
      lockAsyncYCbCr Gralloc1Error.NONE
        ⟨FlexFormat.YCbCr, [sampleY, sampleCb, sampleCr]⟩ sampleRec :=
  resolver_deterministic _ _ _ _ rfl rfl

/-- C10: a plane whose component is neither Y nor Cb nor Cr is invisible to
the resolution step: inserting it at any position (equivalently, removing it)
changes neither the outcome nor the produced descriptor. -/
theorem foreign_planes_ignored (format : FlexFormat)
    (pre post : List FlexPlane) (p : FlexPlane) (ycbcr : AndroidYCbCr)
    (hY : p.component ≠ FlexComponent.Y)
    (hCb : p.component ≠ FlexComponent.Cb)
    (hCr : p.component ≠ FlexComponent.Cr) :
    resolveFlexYCbCr ⟨format, pre ++ p :: post⟩ ycbcr =
      resolveFlexYCbCr ⟨format, pre ++ post⟩ ycbcr := by
  have hstep : ∀ acc, classifyStep acc p = acc := by
    intro acc
    simp [classifyStep, hY, hCb, hCr]
  refine resolve_congr_planes _ _ _ _ ?_
  unfold findPlanes
  rw [List.foldl_append, List.foldl_append, List.foldl_cons, hstep]

/-- C10 witness: an alpha-like extra plane in the middle of the spec's
scenario does not change the result. -/
theorem foreign_planes_ignored_witness :
    resolveFlexYCbCr
      ⟨FlexFormat.YCbCr,
        [sampleY, ⟨400, FlexComponent.other 3, 8, 8, 1, 64⟩, sampleCb,
         sampleCr]⟩ sampleRec =
    resolveFlexYCbCr ⟨FlexFormat.YCbCr, [sampleY, sampleCb, sampleCr]⟩
      sampleRec :=
  foreign_planes_ignored FlexFormat.YCbCr [sampleY] [sampleCb, sampleCr]
    ⟨400, FlexComponent.other 3, 8, 8, 1, 64⟩ sampleRec (by decide) (by decide)
    (by decide)
